import Mathlib

/-!
Verification development for the resource-pool-and-circuit-breaker engine of
the scdor-rebuild-automation repository.

The definitions below are a shallow embedding of the two source modules the
claims are about:

* `src/services/shared/lib/circuitBreaker.mjs` (class `CircuitBreaker`), and
* `src/services/shared/lib/browserPool.mjs` (class `BrowserPool`).

Modelling conventions:
* JavaScript millisecond timestamps (`Date.now()`) are passed explicitly as a
  `Nat` argument `now`; time is monotone in every scenario we consider.
* JavaScript `Map`s are association lists (`List (Nat × _)`) in insertion
  order, with `Map.set` / `Map.delete` modelled by `assocSet` / `assocErase`.
  Opaque string ids (session ids, `browser-${Date.now()}` ids) become `Nat`s.
* Async operations are modelled by their observable outcome: an operation
  guarded by the breaker either resolves successfully within the timeout,
  rejects within the timeout, or does not settle within the timeout
  (`OpBehavior`); Playwright calls that may throw (context/page creation and
  closing, browser launch) take an explicit `Bool` outcome parameter.
* Logging, event emission payloads and process-external effects (actually
  closing OS processes) are dropped; counters that the source keeps
  (`metrics`) are kept.  The `stateChanges` array is kept as its length.
-/

/-- JS `Map.set` on an association list: replace the value at an existing key
in place, otherwise append the new binding (insertion order preserved). -/
def assocSet (k : Nat) (v : α) : List (Nat × α) → List (Nat × α)
  | [] => [(k, v)]
  | kv :: rest => if kv.1 = k then (k, v) :: rest else kv :: assocSet k v rest

/-- JS `Map.delete` on an association list. -/
def assocErase (k : Nat) : List (Nat × α) → List (Nat × α)
  | [] => []
  | kv :: rest => if kv.1 = k then assocErase k rest else kv :: assocErase k rest

theorem mem_assocSet_self (k : Nat) (v : α) :
    ∀ l : List (Nat × α), (k, v) ∈ assocSet k v l := by
  intro l
  induction l with
  | nil => simp [assocSet]
  | cons kv rest ih =>
    by_cases h : kv.1 = k
    · simp [assocSet, h]
    · simp only [assocSet, if_neg h, List.mem_cons]
      exact Or.inr ih

theorem lookup_assocErase (k : Nat) :
    ∀ l : List (Nat × α), (assocErase k l).lookup k = none := by
  intro l
  induction l with
  | nil => simp [assocErase]
  | cons kv rest ih =>
    by_cases h : kv.1 = k
    · simpa [assocErase, h] using ih
    · have hbeq : (k == kv.1) = false := by
        simp [BEq.beq, Nat.decEq]
        omega
      simp [assocErase, if_neg h, List.lookup, hbeq, ih]

/-! ## Circuit breaker (`circuitBreaker.mjs`) -/

/-- The three breaker states (`const State` in the source). -/
inductive BState where
  | CLOSED
  | OPEN
  | HALF_OPEN
deriving DecidableEq, Repr

/-- Breaker configuration (constructor lines 23–32).  `resetTimeout` is
declared in the source but never read, so it is omitted here. -/
structure CBConfig where
  threshold : Nat
  timeout : Nat
  volumeThreshold : Nat
  errorThresholdPercentage : Nat
  rollingWindowSize : Nat
  sleepWindow : Nat
deriving DecidableEq, Repr

/-- One entry of the rolling request window (`recordRequest`, lines 217–228). -/
structure ReqRecord where
  timestamp : Nat
  success : Bool
deriving DecidableEq, Repr

/-- The breaker metrics object (constructor lines 46–53); the `stateChanges`
array is kept as its length. -/
structure CBMetrics where
  totalRequests : Nat
  successfulRequests : Nat
  failedRequests : Nat
  rejectedRequests : Nat
  timeouts : Nat
  stateChanges : Nat
deriving DecidableEq, Repr

/-- State of one `CircuitBreaker` instance (constructor lines 34–43). -/
structure Breaker where
  config : CBConfig
  state : BState
  failures : Nat
  successes : Nat
  lastFailureTime : Option Nat
  nextAttempt : Option Nat
  requestWindow : List ReqRecord
  metrics : CBMetrics
deriving DecidableEq, Repr

/-- A freshly constructed breaker: `CLOSED`, zero counters, empty window. -/
def mkBreaker (cfg : CBConfig) : Breaker :=
  { config := cfg
    state := BState.CLOSED
    failures := 0
    successes := 0
    lastFailureTime := none
    nextAttempt := none
    requestWindow := []
    metrics := { totalRequests := 0, successfulRequests := 0, failedRequests := 0,
                 rejectedRequests := 0, timeouts := 0, stateChanges := 0 } }

/-- `recordRequest(success)` (lines 217–228): push the outcome, then prune
entries older than `rollingWindowSize` (the push-then-filter order of the
source is kept). -/
def recordRequest (b : Breaker) (now : Nat) (success : Bool) : Breaker :=
  let entry : ReqRecord := { timestamp := now, success := success }
  { b with requestWindow := ((b.requestWindow ++ [entry]).filter
      (fun r => decide (now - r.timestamp ≤ b.config.rollingWindowSize))) }

/-- `getRecentRequests()` (lines 233–238). -/
def getRecentRequests (b : Breaker) (now : Nat) : List ReqRecord :=
  b.requestWindow.filter
    (fun r => decide (now - r.timestamp ≤ b.config.rollingWindowSize))

/-- `shouldOpen()` (lines 189–212).  The float comparison
`(errorCount / len) * 100 >= errorThresholdPercentage` is rendered as the
exact rational comparison `pct * len ≤ 100 * errorCount`; the extra
`0 < len` conjunct renders the JS `NaN >= pct` (always false) case that
arises when the window is empty. -/
def shouldOpen (b : Breaker) (now : Nat) : Bool :=
  decide (b.config.threshold ≤ b.failures) ||
    (let recent := getRecentRequests b now
     let errorCount := (recent.filter (fun r => !r.success)).length
     decide (b.config.volumeThreshold ≤ recent.length) &&
       decide (0 < recent.length) &&
       decide (b.config.errorThresholdPercentage * recent.length ≤ 100 * errorCount))

/-- `setState(newState)` (lines 243–285): record the transition, then set
`nextAttempt`/`failures` according to the new state.  Note that the
`HALF_OPEN` branch leaves `nextAttempt` untouched, exactly as the source
does. -/
def setState (b : Breaker) (now : Nat) (ns : BState) : Breaker :=
  let b1 := { b with state := ns,
                     metrics := { b.metrics with stateChanges := b.metrics.stateChanges + 1 } }
  match ns with
  | BState.OPEN => { b1 with nextAttempt := some (now + b1.config.sleepWindow) }
  | BState.CLOSED => { b1 with failures := 0, nextAttempt := none }
  | BState.HALF_OPEN => b1

/-- `onSuccess()` (lines 144–158). -/
def onSuccess (b : Breaker) (now : Nat) : Breaker :=
  let b1 := { b with failures := 0, successes := b.successes + 1,
                     metrics := { b.metrics with
                       successfulRequests := b.metrics.successfulRequests + 1 } }
  let b2 := recordRequest b1 now true
  if b2.state = BState.HALF_OPEN then setState b2 now BState.CLOSED else b2

/-- `onFailure(error)` (lines 163–184). -/
def onFailure (b : Breaker) (now : Nat) : Breaker :=
  let b1 := { b with failures := b.failures + 1, lastFailureTime := some now,
                     metrics := { b.metrics with
                       failedRequests := b.metrics.failedRequests + 1 } }
  let b2 := recordRequest b1 now false
  if b2.state = BState.HALF_OPEN then setState b2 now BState.OPEN
  else if b2.state = BState.CLOSED then
    if shouldOpen b2 now then setState b2 now BState.OPEN else b2
  else b2

/-- Observable behaviour of one guarded operation with respect to the
breaker's timeout: it resolves within `config.timeout`, rejects within it, or
does not settle within it (in which case the `setTimeout` in
`executeWithTimeout` rejects first, and the promise being already settled,
any later outcome of the operation is discarded). -/
inductive OpBehavior where
  | succeeds
  | fails
  | hangs
deriving DecidableEq, Repr

/-- Errors surfaced by `execute` (the source throws `Error` objects; the
constructor names follow the spec's taxonomy). -/
inductive ExecError where
  | CircuitOpen
  | OperationTimeout
  | OpFailed
deriving DecidableEq, Repr

/-- Result of one `execute` call: the value returned/thrown, the breaker
state afterwards, whether the wrapped operation was invoked at all, and the
breaker state at the moment it was invoked (`OPEN` in the rejection branch,
where it is not invoked). -/
structure ExecOut where
  result : Except ExecError Unit
  breaker : Breaker
  invoked : Bool
  stateAtCall : BState
deriving Repr

/-- `executeWithTimeout(fn)` (lines 105–121): a hung operation is rejected by
the timer (counted in `metrics.timeouts`); an operation that settles within
the timeout propagates its own outcome. -/
def executeWithTimeout (b : Breaker) (op : OpBehavior) :
    Except ExecError Unit × Breaker :=
  match op with
  | OpBehavior.succeeds => (Except.ok (), b)
  | OpBehavior.fails => (Except.error ExecError.OpFailed, b)
  | OpBehavior.hangs =>
      (Except.error ExecError.OperationTimeout,
       { b with metrics := { b.metrics with timeouts := b.metrics.timeouts + 1 } })

/-- The `try`/`catch` body of `execute` (lines 81–99), without fallback: run
the operation under the timeout, then account the outcome.  A fallback only
changes the value returned to the caller (`executeFallback` never touches
breaker state), so the breaker-state content of the claims is unaffected. -/
def runOp (b : Breaker) (now : Nat) (op : OpBehavior) : ExecOut :=
  match executeWithTimeout b op with
  | (Except.ok _, b1) =>
      { result := Except.ok (), breaker := onSuccess b1 now,
        invoked := true, stateAtCall := b.state }
  | (Except.error e, b1) =>
      { result := Except.error e, breaker := onFailure b1 now,
        invoked := true, stateAtCall := b.state }

/-- `execute(fn)` (lines 59–100).  In the `OPEN` state the source compares
`Date.now() >= this.nextAttempt`; `nextAttempt` is a number whenever the
state is `OPEN` (and JS would coerce `null` to 0), rendered by `getD 0`. -/
def execute (b : Breaker) (now : Nat) (op : OpBehavior) : ExecOut :=
  let b1 := { b with metrics := { b.metrics with
                totalRequests := b.metrics.totalRequests + 1 } }
  if b1.state = BState.OPEN then
    if b1.nextAttempt.getD 0 ≤ now then
      runOp (setState b1 now BState.HALF_OPEN) now op
    else
      { result := Except.error ExecError.CircuitOpen
        breaker := { b1 with metrics := { b1.metrics with
          rejectedRequests := b1.metrics.rejectedRequests + 1 } }
        invoked := false
        stateAtCall := BState.OPEN }
  else runOp b1 now op

/-- `open()` (lines 290–292). -/
def forceOpen (b : Breaker) (now : Nat) : Breaker :=
  setState b now BState.OPEN

/-- `close()` (lines 297–301). -/
def forceClose (b : Breaker) (now : Nat) : Breaker :=
  let b1 := setState b now BState.CLOSED
  { b1 with failures := 0, nextAttempt := none }

/-- `reset()` (lines 306–316). -/
def resetBreaker (b : Breaker) : Breaker :=
  { b with state := BState.CLOSED, failures := 0, successes := 0,
           lastFailureTime := none, nextAttempt := none, requestWindow := [] }

/-- One externally invokable breaker operation, for reachability analysis. -/
inductive CBOp where
  | exec (now : Nat) (op : OpBehavior)
  | forceO (now : Nat)
  | forceC (now : Nat)
  | doReset
deriving Repr

/-- Apply one breaker operation. -/
def applyOp (b : Breaker) : CBOp → Breaker
  | CBOp.exec now op => (execute b now op).breaker
  | CBOp.forceO now => forceOpen b now
  | CBOp.forceC now => forceClose b now
  | CBOp.doReset => resetBreaker b

/-- Breaker states reachable from a fresh breaker by any sequence of
`execute`, `open`, `close` and `reset` calls. -/
inductive CBReachable (cfg : CBConfig) : Breaker → Prop where
  | init : CBReachable cfg (mkBreaker cfg)
  | step {b : Breaker} (o : CBOp) :
      CBReachable cfg b → CBReachable cfg (applyOp b o)

/-! ## Browser pool (`browserPool.mjs`) -/

/-- Pool configuration (constructor lines 17–29); only the options the
modelled operations read are kept (`browserType`, `headless`, memory/CPU
bounds and `retryAttempts` are only passed to Playwright or never read). -/
structure PoolConfig where
  maxBrowsers : Nat
  maxPages : Nat
  timeout : Nat
  healthCheckInterval : Nat
  sessionTimeout : Nat
deriving DecidableEq, Repr

/-- The option defaults of the constructor. -/
def defaultPoolConfig : PoolConfig :=
  { maxBrowsers := 5, maxPages := 10, timeout := 30000,
    healthCheckInterval := 30000, sessionTimeout := 300000 }

/-- One entry of the `browsers` map (created in `createBrowser`,
lines 245–258).  The `contexts` array — the pool's per-handle session count —
is kept as its length; it is written only by `createBrowser` (empty) and by
`checkBrowserHealth`, exactly as in the source.  Per-browser `metrics` are
dropped (only `errors` is ever written, and no claim reads it). -/
structure BrowserRec where
  contextsLen : Nat
  isHealthy : Bool
  createdAt : Nat
  lastHealthCheck : Nat
deriving DecidableEq, Repr

/-- One entry of the `sessions` map (built in `getPage`, lines 111–120).
The key of the map is the session id; the `browser` object reference is kept
as the browser id; the `page`/`context` references and the never-read
`memoryUsage`/`cpuUsage` fields are dropped. -/
structure SessionRec where
  browserId : Nat
  createdAt : Nat
  lastActivity : Nat
deriving DecidableEq, Repr

/-- The pool metrics object (constructor lines 33–42). -/
structure PoolMetrics where
  created : Nat
  destroyed : Nat
  crashed : Nat
  healthy : Nat
  unhealthy : Nat
  activePages : Nat
  totalRequests : Nat
  failedRequests : Nat
deriving DecidableEq, Repr

/-- State of one `BrowserPool` instance.  `healthTimerActive` models whether
the `setInterval` handle of `startHealthMonitoring` is live.  Note that the
source class has no "health check in progress" flag — see the C5 theorems. -/
structure Pool where
  config : PoolConfig
  browsers : List (Nat × BrowserRec)
  sessions : List (Nat × SessionRec)
  metrics : PoolMetrics
  isShuttingDown : Bool
  healthTimerActive : Bool
deriving DecidableEq, Repr

/-- A freshly constructed pool (constructor lines 31–46). -/
def mkPool (cfg : PoolConfig) : Pool :=
  { config := cfg, browsers := [], sessions := []
    metrics := { created := 0, destroyed := 0, crashed := 0, healthy := 0,
                 unhealthy := 0, activePages := 0, totalRequests := 0,
                 failedRequests := 0 }
    isShuttingDown := false, healthTimerActive := false }

/-- Error taxonomy of the pool operations.  The source throws plain `Error`s
with messages; the constructor names follow the spec
(`PoolShuttingDown` = "Browser pool is shutting down",
`WaitTimeout` = "Timeout waiting for available browser",
`DriverLaunchFailed` = a failed Playwright `launch`, `ContextFailed` /
`PageFailed` = a failed `newContext` / `newPage`). -/
inductive PoolError where
  | PoolShuttingDown
  | DriverLaunchFailed
  | WaitTimeout
  | ContextFailed
  | PageFailed
deriving DecidableEq, Repr

/-- `createBrowser()` (lines 210–281), successful launch: register a fresh
healthy record with an empty `contexts` array and bump the counters.  The
source keys the map by `browser-${Date.now()}`; the model uses `now` itself
(successive launches see strictly increasing clocks). -/
def createBrowser (p : Pool) (now : Nat) : Pool × Nat :=
  let rec0 : BrowserRec :=
    { contextsLen := 0, isHealthy := true, createdAt := now, lastHealthCheck := now }
  let m := { p.metrics with created := p.metrics.created + 1, healthy := p.metrics.healthy + 1 }
  ({ p with browsers := assocSet now rec0 p.browsers, metrics := m }, now)

/-- The scan loop shared by `getAvailableBrowser` (lines 192–196) and
`waitForAvailableBrowser` (lines 290–294): the first browser in map order
that is marked healthy and whose tracked `contexts.length` is below
`maxPages`. -/
def selectBrowser (bs : List (Nat × BrowserRec)) (maxPages : Nat) :
    Option (Nat × BrowserRec) :=
  bs.find? (fun kv => kv.2.isHealthy && decide (kv.2.contextsLen < maxPages))

/-- The hard-coded default of `waitForAvailableBrowser(timeout = 10000)`;
`getAvailableBrowser` always calls it with this value (line 204). -/
def waitTimeoutDefault : Nat := 10000

/-- The polling loop of `waitForAvailableBrowser` (lines 286–300): scan the
browser table, sleep 100 ms, repeat while the elapsed time is below the
timeout, then throw.  `snap k` is the browser table as observed by the scan
at elapsed time `100 * k`; `remaining` counts the scans still permitted by
the `while` guard.  `Except.ok` carries (elapsed time, browser id);
`Except.error` carries the elapsed time of the throw. -/
def waitScan (snap : Nat → List (Nat × BrowserRec)) (maxPages : Nat) :
    Nat → Nat → Except Nat (Nat × Nat)
  | 0, k => Except.error (100 * k)
  | r + 1, k =>
      match selectBrowser (snap k) maxPages with
      | some (bid, _) => Except.ok (100 * k, bid)
      | none => waitScan snap maxPages r (k + 1)

/-- `waitForAvailableBrowser(timeout)`: the `while (elapsed < timeout)` loop
performs exactly `⌈timeout / 100⌉` scans (at elapsed 0, 100, …) and throws at
elapsed `100 * ⌈timeout / 100⌉`. -/
def waitForAvailableBrowser (snap : Nat → List (Nat × BrowserRec))
    (maxPages timeoutMs : Nat) : Except Nat (Nat × Nat) :=
  waitScan snap maxPages ((timeoutMs + 99) / 100) 0

/-- `getAvailableBrowser()` (lines 190–205), sequential rendering: reuse the
first healthy browser with tracked capacity; otherwise launch a new one while
under `maxBrowsers` (`launchOk` is the Playwright launch outcome; a launch
failure propagates); otherwise fall into `waitForAvailableBrowser`.  In a
sequential execution nothing mutates the pool while the caller polls, so the
scan keeps failing and the wait always ends in its timeout throw (the
temporal content of the wait is modelled separately by `waitScan`). -/
def getAvailableBrowserSeq (p : Pool) (now : Nat) (launchOk : Bool) :
    Pool × Except PoolError Nat :=
  match selectBrowser p.browsers p.config.maxPages with
  | some (bid, _) => (p, Except.ok bid)
  | none =>
      if p.browsers.length < p.config.maxBrowsers then
        if launchOk then
          let c := createBrowser p now
          (c.1, Except.ok c.2)
        else (p, Except.error PoolError.DriverLaunchFailed)
      else (p, Except.error PoolError.WaitTimeout)

/-- The `catch` accounting of `getPage` (line 142): `metrics.failedRequests++`. -/
def bumpFailed (p : Pool) : Pool :=
  { p with metrics := { p.metrics with failedRequests := p.metrics.failedRequests + 1 } }

/-- `getPage(sessionId)` (lines 74–149).  `launchOk`, `ctxOk`, `pageOk` are
the outcomes of the Playwright calls (`launch`, `browser.newContext`,
`context.newPage`); any throw is re-thrown after bumping `failedRequests`.
On success the session is registered (`Map.set`) and `activePages` bumped;
note that nothing touches the chosen browser's tracked `contexts`. -/
def bumpTotal (p : Pool) : Pool :=
  { p with metrics := { p.metrics with totalRequests := p.metrics.totalRequests + 1 } }

def getPage (p : Pool) (sid now : Nat) (launchOk ctxOk pageOk : Bool) :
    Pool × Except PoolError Unit :=
  if (bumpTotal p).isShuttingDown then
    (bumpFailed (bumpTotal p), Except.error PoolError.PoolShuttingDown)
  else
    match getAvailableBrowserSeq (bumpTotal p) now launchOk with
    | (p2, Except.error e) => (bumpFailed p2, Except.error e)
    | (p2, Except.ok bid) =>
        if ctxOk then
          if pageOk then
            let s : SessionRec := { browserId := bid, createdAt := now, lastActivity := now }
            let m := { p2.metrics with activePages := p2.metrics.activePages + 1 }
            ({ p2 with sessions := assocSet sid s p2.sessions, metrics := m }, Except.ok ())
          else (bumpFailed p2, Except.error PoolError.PageFailed)
        else (bumpFailed p2, Except.error PoolError.ContextFailed)

/-- `releasePage(sessionId)` (lines 154–185).  `pageCloseOk` / `ctxCloseOk`
are the outcomes of `page.close()` / `context.close()`.  An unknown session
id only logs a warning; a close that throws is caught, logged and swallowed —
in that case neither the `sessions` entry nor `activePages` is touched.  Only
when both closes return does the source delete the session and decrement
`activePages`. -/
def releasePage (p : Pool) (sid : Nat) (pageCloseOk ctxCloseOk : Bool) : Pool :=
  match p.sessions.lookup sid with
  | none => p
  | some _ =>
      if pageCloseOk then
        if ctxCloseOk then
          let m := { p.metrics with activePages := p.metrics.activePages - 1 }
          { p with sessions := assocErase sid p.sessions, metrics := m }
        else p
      else p

/-- `removeBrowser(browserId)` (lines 421–446): closing errors are swallowed;
the map entry is always deleted and `destroyed` bumped. -/
def removeBrowser (p : Pool) (bid : Nat) : Pool :=
  match p.browsers.lookup bid with
  | none => p
  | some _ =>
      let m := { p.metrics with destroyed := p.metrics.destroyed + 1 }
      { p with browsers := assocErase bid p.browsers, metrics := m }

/-- `checkBrowserHealth(browserId, browser)` (lines 340–371) on one record:
a disconnected driver marks the record unhealthy; otherwise the tracked
`contexts` array is synced from the live driver (`liveContexts`) and a probe
round-trip is exercised — a probe throw is caught and marks the record
unhealthy, a successful probe marks it healthy and stamps
`lastHealthCheck`. -/
def checkBrowserHealth (b : BrowserRec) (now : Nat) (connected : Bool)
    (liveContexts : Nat) (probeOk : Bool) : BrowserRec :=
  if !connected then { b with isHealthy := false }
  else
    let b1 := { b with contextsLen := liveContexts }
    if probeOk then { b1 with isHealthy := true, lastHealthCheck := now }
    else { b1 with isHealthy := false }

/-- `initialize()` (lines 51–69): pre-warm `min 2 maxBrowsers` browsers and
start the health-monitoring timer.  The k-th launch is stamped `now + k`
(launches complete on strictly increasing clocks). -/
def initPool (p : Pool) (now : Nat) : Pool :=
  let n := min 2 p.config.maxBrowsers
  let p1 := (List.range n).foldl (fun q k => (createBrowser q (now + k)).1) p
  { p1 with healthTimerActive := true }

/-- `shutdown()` (lines 510–532): raise the flag, stop the timer, release
every session (over a snapshot of the key set), then remove every browser.
`closeOutcomes sid` gives the (`page.close`, `context.close`) outcomes used
when releasing session `sid`. -/
def shutdownFlag (p : Pool) : Pool :=
  { p with isShuttingDown := true, healthTimerActive := false }

/-- The session loop of `shutdown` (lines 520–523): `releasePage` over a
snapshot of the session keys. -/
def releaseAll (p : Pool) (closeOutcomes : Nat → Bool × Bool) : Pool :=
  (p.sessions.map Prod.fst).foldl
    (fun q sid => releasePage q sid (closeOutcomes sid).1 (closeOutcomes sid).2) p

/-- The browser loop of `shutdown` (lines 526–529): `removeBrowser` over a
snapshot of the browser keys. -/
def removeAll (p : Pool) : Pool :=
  (p.browsers.map Prod.fst).foldl (fun q bid => removeBrowser q bid) p

def shutdown (p : Pool) (closeOutcomes : Nat → Bool × Bool) : Pool :=
  removeAll (releaseAll (shutdownFlag p) closeOutcomes)

/-- Sum of the pool's per-handle session counts (the tracked
`contexts.length` of every browser record): the quantity the spec calls
"sum(active_session_count across handles)". -/
def sumActive (p : Pool) : Nat :=
  (p.browsers.map (fun kv => kv.2.contextsLen)).sum

/-- Start time of the (k+1)-st health-monitor run: `startHealthMonitoring`
(lines 305–313) schedules `performHealthCheck` with `setInterval`, which
fires at `interval`, `2*interval`, … and — the callback body being
unconditional, the class keeping no in-progress flag — starts a run at every
tick. -/
def healthRunStart (interval k : Nat) : Nat := interval * (k + 1)

/-- Whether the k-th health-monitor run is still executing at time `t`,
given that run k takes `dur k` milliseconds. -/
def healthRunActiveAt (interval : Nat) (dur : Nat → Nat) (k t : Nat) : Bool :=
  decide (healthRunStart interval k ≤ t) &&
    decide (t < healthRunStart interval k + dur k)

/-- Number of health-monitor runs simultaneously executing at time `t`,
among the first `n` timer ticks. -/
def activeHealthRuns (interval : Nat) (dur : Nat → Nat) (n t : Nat) : Nat :=
  ((List.range n).filter (fun k => healthRunActiveAt interval dur k t)).length

/-! ## Helper lemmas about the breaker transitions -/

theorem recordRequest_length (b : Breaker) (now : Nat) (s : Bool) :
    (recordRequest b now s).requestWindow.length ≤ b.requestWindow.length + 1 := by
  unfold recordRequest
  refine le_trans (List.length_filter_le _ _) ?_
  simp

theorem shouldOpen_true_of_failures (b : Breaker) (now : Nat)
    (h : b.config.threshold ≤ b.failures) : shouldOpen b now = true := by
  unfold shouldOpen
  simp [h]

theorem shouldOpen_false_of (b : Breaker) (now : Nat)
    (h1 : b.failures < b.config.threshold)
    (h2 : b.requestWindow.length < b.config.volumeThreshold) :
    shouldOpen b now = false := by
  have h1n : ¬ (b.config.threshold ≤ b.failures) := Nat.not_le.mpr h1
  have h2n : ¬ (b.config.volumeThreshold ≤ (getRecentRequests b now).length) := by
    have hfl := List.length_filter_le
      (fun r => decide (now - r.timestamp ≤ b.config.rollingWindowSize)) b.requestWindow
    unfold getRecentRequests
    omega
  unfold shouldOpen
  simp [h1n, h2n]


/-- The field updates performed at the top of `onFailure` (lines 164–167),
named so that the transition lemmas below can state projection facts. -/
def failBump (b : Breaker) (now : Nat) : Breaker :=
  recordRequest
    { b with failures := b.failures + 1, lastFailureTime := some now,
             metrics := { b.metrics with failedRequests := b.metrics.failedRequests + 1 } }
    now false

/-- The field updates performed at the top of `onSuccess` (lines 145–148). -/
def successBump (b : Breaker) (now : Nat) : Breaker :=
  recordRequest
    { b with failures := 0, successes := b.successes + 1,
             metrics := { b.metrics with
               successfulRequests := b.metrics.successfulRequests + 1 } }
    now true

/-- The `metrics.totalRequests++` at the top of `execute` (line 60). -/
def totalBump (b : Breaker) : Breaker :=
  { b with metrics := { b.metrics with totalRequests := b.metrics.totalRequests + 1 } }

theorem onFailure_eq (b : Breaker) (now : Nat) :
    onFailure b now =
      (if (failBump b now).state = BState.HALF_OPEN then
        setState (failBump b now) now BState.OPEN
      else if (failBump b now).state = BState.CLOSED then
        (if shouldOpen (failBump b now) now then
          setState (failBump b now) now BState.OPEN
        else failBump b now)
      else failBump b now) := rfl

theorem onSuccess_eq (b : Breaker) (now : Nat) :
    onSuccess b now =
      (if (successBump b now).state = BState.HALF_OPEN then
        setState (successBump b now) now BState.CLOSED
      else successBump b now) := rfl

theorem execute_eq (b : Breaker) (now : Nat) (op : OpBehavior) :
    execute b now op =
      (if (totalBump b).state = BState.OPEN then
        (if (totalBump b).nextAttempt.getD 0 ≤ now then
          runOp (setState (totalBump b) now BState.HALF_OPEN) now op
        else
          { result := Except.error ExecError.CircuitOpen
            breaker := { totalBump b with metrics := { (totalBump b).metrics with
              rejectedRequests := (totalBump b).metrics.rejectedRequests + 1 } }
            invoked := false
            stateAtCall := BState.OPEN })
      else runOp (totalBump b) now op) := rfl

theorem failBump_state (b : Breaker) (now : Nat) :
    (failBump b now).state = b.state := rfl

theorem failBump_failures (b : Breaker) (now : Nat) :
    (failBump b now).failures = b.failures + 1 := rfl

theorem failBump_config (b : Breaker) (now : Nat) :
    (failBump b now).config = b.config := rfl

theorem failBump_nextAttempt (b : Breaker) (now : Nat) :
    (failBump b now).nextAttempt = b.nextAttempt := rfl

theorem failBump_window_le (b : Breaker) (now : Nat) :
    (failBump b now).requestWindow.length ≤ b.requestWindow.length + 1 := by
  unfold failBump
  exact recordRequest_length _ now false

theorem successBump_state (b : Breaker) (now : Nat) :
    (successBump b now).state = b.state := rfl

theorem successBump_failures (b : Breaker) (now : Nat) :
    (successBump b now).failures = 0 := rfl

theorem successBump_nextAttempt (b : Breaker) (now : Nat) :
    (successBump b now).nextAttempt = b.nextAttempt := rfl

theorem totalBump_state (b : Breaker) : (totalBump b).state = b.state := rfl

theorem totalBump_nextAttempt (b : Breaker) :
    (totalBump b).nextAttempt = b.nextAttempt := rfl

theorem setState_open_fields (b : Breaker) (now : Nat) :
    (setState b now BState.OPEN).state = BState.OPEN ∧
    (setState b now BState.OPEN).nextAttempt = some (now + b.config.sleepWindow) ∧
    (setState b now BState.OPEN).failures = b.failures ∧
    (setState b now BState.OPEN).config = b.config := by
  refine ⟨rfl, rfl, rfl, rfl⟩

theorem setState_closed_fields (b : Breaker) (now : Nat) :
    (setState b now BState.CLOSED).state = BState.CLOSED ∧
    (setState b now BState.CLOSED).nextAttempt = none ∧
    (setState b now BState.CLOSED).failures = 0 := by
  refine ⟨rfl, rfl, rfl⟩

theorem setState_halfopen_fields (b : Breaker) (now : Nat) :
    (setState b now BState.HALF_OPEN).state = BState.HALF_OPEN ∧
    (setState b now BState.HALF_OPEN).nextAttempt = b.nextAttempt ∧
    (setState b now BState.HALF_OPEN).failures = b.failures ∧
    (setState b now BState.HALF_OPEN).config = b.config := by
  refine ⟨rfl, rfl, rfl, rfl⟩

theorem onFailure_closed_noopen (b : Breaker) (now : Nat)
    (hs : b.state = BState.CLOSED)
    (hf : b.failures + 1 < b.config.threshold)
    (hw : b.requestWindow.length + 1 < b.config.volumeThreshold) :
    (onFailure b now).state = BState.CLOSED ∧
    (onFailure b now).failures = b.failures + 1 ∧
    (onFailure b now).nextAttempt = b.nextAttempt ∧
    (onFailure b now).config = b.config ∧
    (onFailure b now).requestWindow.length ≤ b.requestWindow.length + 1 := by
  have hso : shouldOpen (failBump b now) now = false := by
    apply shouldOpen_false_of
    · rw [failBump_failures, failBump_config]
      exact hf
    · rw [failBump_config]
      exact lt_of_le_of_lt (failBump_window_le b now) hw
  rw [onFailure_eq, failBump_state, hs]
  simp only [reduceCtorEq, if_false, if_true, hso]
  exact ⟨failBump_state b now ▸ hs ▸ rfl, failBump_failures b now,
    failBump_nextAttempt b now, failBump_config b now, failBump_window_le b now⟩

theorem onFailure_closed_opens (b : Breaker) (now : Nat)
    (hs : b.state = BState.CLOSED)
    (hf : b.config.threshold ≤ b.failures + 1) :
    (onFailure b now).state = BState.OPEN ∧
    (onFailure b now).nextAttempt = some (now + b.config.sleepWindow) ∧
    (onFailure b now).failures = b.failures + 1 ∧
    (onFailure b now).config = b.config := by
  have hso : shouldOpen (failBump b now) now = true := by
    apply shouldOpen_true_of_failures
    rw [failBump_failures, failBump_config]
    exact hf
  rw [onFailure_eq, failBump_state, hs]
  simp only [reduceCtorEq, if_false, if_true, hso]
  refine ⟨(setState_open_fields _ now).1, ?_, ?_, (setState_open_fields _ now).2.2.2.trans
    (failBump_config b now)⟩
  · rw [(setState_open_fields _ now).2.1, failBump_config]
  · rw [(setState_open_fields _ now).2.2.1, failBump_failures]

theorem runOp_fails (b : Breaker) (now : Nat) :
    runOp b now OpBehavior.fails =
      { result := Except.error ExecError.OpFailed, breaker := onFailure b now,
        invoked := true, stateAtCall := b.state } := rfl

theorem runOp_succeeds (b : Breaker) (now : Nat) :
    runOp b now OpBehavior.succeeds =
      { result := Except.ok (), breaker := onSuccess b now,
        invoked := true, stateAtCall := b.state } := rfl

theorem totalBump_failures (b : Breaker) : (totalBump b).failures = b.failures := rfl

theorem totalBump_config (b : Breaker) : (totalBump b).config = b.config := rfl

theorem totalBump_window (b : Breaker) :
    (totalBump b).requestWindow = b.requestWindow := rfl

/-- `execute` on a breaker that is not `OPEN` runs the operation directly. -/
theorem execute_not_open (b : Breaker) (now : Nat) (op : OpBehavior)
    (hs : b.state ≠ BState.OPEN) :
    execute b now op = runOp (totalBump b) now op := by
  rw [execute_eq, totalBump_state, if_neg hs]

/-- A failing call on a `CLOSED` breaker that stays below both opening
conditions: the breaker stays `CLOSED`, the consecutive-failure counter goes
up by one, `nextAttempt` is untouched. -/
theorem execute_fail_noopen (b : Breaker) (now : Nat)
    (hs : b.state = BState.CLOSED)
    (hf : b.failures + 1 < b.config.threshold)
    (hw : b.requestWindow.length + 1 < b.config.volumeThreshold) :
    (execute b now OpBehavior.fails).breaker.state = BState.CLOSED ∧
    (execute b now OpBehavior.fails).breaker.failures = b.failures + 1 ∧
    (execute b now OpBehavior.fails).breaker.nextAttempt = b.nextAttempt ∧
    (execute b now OpBehavior.fails).breaker.config = b.config ∧
    (execute b now OpBehavior.fails).breaker.requestWindow.length ≤
      b.requestWindow.length + 1 := by
  rw [execute_not_open b now OpBehavior.fails (by rw [hs]; intro h; cases h),
    runOp_fails]
  have hb : (totalBump b).state = BState.CLOSED := by rw [totalBump_state, hs]
  have hf2 : (totalBump b).failures + 1 < (totalBump b).config.threshold := hf
  have hw2 : (totalBump b).requestWindow.length + 1 <
      (totalBump b).config.volumeThreshold := hw
  have h := onFailure_closed_noopen (totalBump b) now hb hf2 hw2
  exact ⟨h.1, h.2.1, h.2.2.1, h.2.2.2.1, h.2.2.2.2⟩

/-- A failing call on a `CLOSED` breaker whose consecutive-failure counter
reaches `threshold`: the breaker opens and `nextAttempt` is set to
`now + sleepWindow`. -/
theorem execute_fail_opens (b : Breaker) (now : Nat)
    (hs : b.state = BState.CLOSED)
    (hf : b.config.threshold ≤ b.failures + 1) :
    (execute b now OpBehavior.fails).breaker.state = BState.OPEN ∧
    (execute b now OpBehavior.fails).breaker.nextAttempt =
      some (now + b.config.sleepWindow) ∧
    (execute b now OpBehavior.fails).breaker.failures = b.failures + 1 ∧
    (execute b now OpBehavior.fails).breaker.config = b.config := by
  rw [execute_not_open b now OpBehavior.fails (by rw [hs]; intro h; cases h),
    runOp_fails]
  have hb : (totalBump b).state = BState.CLOSED := by rw [totalBump_state, hs]
  exact onFailure_closed_opens (totalBump b) now hb hf

/-- A call on an `OPEN` breaker before `nextAttempt`: rejected with
`CircuitOpen`, the operation is not invoked, and apart from the
request-accounting counters the breaker is unchanged. -/
theorem execute_rejected (b : Breaker) (now : Nat) (op : OpBehavior)
    (hs : b.state = BState.OPEN)
    (hn : ¬ (b.nextAttempt.getD 0 ≤ now)) :
    (execute b now op).result = Except.error ExecError.CircuitOpen ∧
    (execute b now op).invoked = false ∧
    (execute b now op).breaker.state = BState.OPEN ∧
    (execute b now op).breaker.nextAttempt = b.nextAttempt ∧
    (execute b now op).breaker.failures = b.failures := by
  rw [execute_eq, totalBump_state, totalBump_nextAttempt, if_pos hs, if_neg hn]
  exact ⟨rfl, rfl, hs ▸ rfl, rfl, rfl⟩

/-- A call on an `OPEN` breaker at or after `nextAttempt`, whose operation
succeeds: the trial is attempted in `HALF_OPEN` and the breaker closes with
`failures` reset to 0 and `nextAttempt` cleared. -/
theorem execute_halfopen_success (b : Breaker) (now : Nat)
    (hs : b.state = BState.OPEN)
    (hn : b.nextAttempt.getD 0 ≤ now) :
    (execute b now OpBehavior.succeeds).invoked = true ∧
    (execute b now OpBehavior.succeeds).stateAtCall = BState.HALF_OPEN ∧
    (execute b now OpBehavior.succeeds).result = Except.ok () ∧
    (execute b now OpBehavior.succeeds).breaker.state = BState.CLOSED ∧
    (execute b now OpBehavior.succeeds).breaker.failures = 0 ∧
    (execute b now OpBehavior.succeeds).breaker.nextAttempt = none := by
  rw [execute_eq, totalBump_state, totalBump_nextAttempt, if_pos hs, if_pos hn,
    runOp_succeeds]
  have hhalf : (setState (totalBump b) now BState.HALF_OPEN).state =
      BState.HALF_OPEN := (setState_halfopen_fields _ now).1
  have hsb : (successBump (setState (totalBump b) now BState.HALF_OPEN) now).state =
      BState.HALF_OPEN := by rw [successBump_state, hhalf]
  refine ⟨rfl, hhalf, rfl, ?_, ?_, ?_⟩
  · rw [onSuccess_eq, hsb, if_pos rfl]
    exact (setState_closed_fields _ now).1
  · rw [onSuccess_eq, hsb, if_pos rfl]
    exact (setState_closed_fields _ now).2.2
  · rw [onSuccess_eq, hsb, if_pos rfl]
    exact (setState_closed_fields _ now).2.1

/-! ## C1: threshold-3 open / reject / half-open / close cycle -/

/-- The configuration of the C1 scenario: `threshold = 3`, all other options
at their constructor defaults (`timeout` 60000, `volumeThreshold` 10,
`errorThresholdPercentage` 50, `rollingWindowSize` 10000, `sleepWindow`
5000). -/
def c1cfg : CBConfig :=
  { threshold := 3, timeout := 60000, volumeThreshold := 10,
    errorThresholdPercentage := 50, rollingWindowSize := 10000,
    sleepWindow := 5000 }

/-- The breaker after three consecutive failing `execute` calls at times
`t1`, `t2`, `t3`, starting from a fresh threshold-3 breaker. -/
def c1b3 (t1 t2 t3 : Nat) : Breaker :=
  (execute (execute (execute (mkBreaker c1cfg) t1 OpBehavior.fails).breaker
    t2 OpBehavior.fails).breaker t3 OpBehavior.fails).breaker

/-- C1 (confirmed): with `threshold = 3`, starting `CLOSED` with
`failures = 0`, three consecutive failing `execute` calls leave the breaker
`OPEN` with `nextAttempt = t3 + sleepWindow`; any `execute` call before
`nextAttempt` fails with `CircuitOpen` without invoking the operation and
leaves the breaker `OPEN`; the first call at or after `nextAttempt` is let
through with the breaker in `HALF_OPEN`, and its success closes the breaker
with `failures` reset to 0 (and `nextAttempt` cleared). -/
theorem c1_breaker_cycle (t1 t2 t3 t4 t5 : Nat)
    (h4 : t4 < t3 + 5000) (h5 : t3 + 5000 ≤ t5) :
    (c1b3 t1 t2 t3).state = BState.OPEN ∧
    (c1b3 t1 t2 t3).nextAttempt = some (t3 + 5000) ∧
    (∀ op : OpBehavior,
      (execute (c1b3 t1 t2 t3) t4 op).result = Except.error ExecError.CircuitOpen ∧
      (execute (c1b3 t1 t2 t3) t4 op).invoked = false ∧
      (execute (c1b3 t1 t2 t3) t4 op).breaker.state = BState.OPEN) ∧
    (execute (c1b3 t1 t2 t3) t5 OpBehavior.succeeds).invoked = true ∧
    (execute (c1b3 t1 t2 t3) t5 OpBehavior.succeeds).stateAtCall = BState.HALF_OPEN ∧
    (execute (c1b3 t1 t2 t3) t5 OpBehavior.succeeds).breaker.state = BState.CLOSED ∧
    (execute (c1b3 t1 t2 t3) t5 OpBehavior.succeeds).breaker.failures = 0 ∧
    (execute (c1b3 t1 t2 t3) t5 OpBehavior.succeeds).breaker.nextAttempt = none := by
  have h0s : (mkBreaker c1cfg).state = BState.CLOSED := rfl
  have h1 := execute_fail_noopen (mkBreaker c1cfg) t1 h0s (by decide) (by decide)
  set b1 := (execute (mkBreaker c1cfg) t1 OpBehavior.fails).breaker with hb1
  have h2 := execute_fail_noopen b1 t2 h1.1
    (by rw [h1.2.1, h1.2.2.2.1]; decide)
    (by rw [h1.2.2.2.1]; have := h1.2.2.2.2; simp [mkBreaker, c1cfg] at this ⊢; omega)
  set b2 := (execute b1 t2 OpBehavior.fails).breaker with hb2
  have h3 := execute_fail_opens b2 t3 h2.1
    (by rw [h2.2.1, h1.2.1, h2.2.2.2.1, h1.2.2.2.1]; decide)
  have hc3 : (c1b3 t1 t2 t3) = (execute b2 t3 OpBehavior.fails).breaker := rfl
  have hsleep : b2.config.sleepWindow = 5000 := by
    rw [h2.2.2.2.1, h1.2.2.2.1]
    rfl
  have hstate : (c1b3 t1 t2 t3).state = BState.OPEN := by rw [hc3]; exact h3.1
  have hna : (c1b3 t1 t2 t3).nextAttempt = some (t3 + 5000) := by
    rw [hc3, h3.2.1, hsleep]
  refine ⟨hstate, hna, ?_, ?_⟩
  · intro op
    have hrej := execute_rejected (c1b3 t1 t2 t3) t4 op hstate
      (by rw [hna]; simp only [Option.getD_some]; omega)
    exact ⟨hrej.1, hrej.2.1, hrej.2.2.1⟩
  · have hok := execute_halfopen_success (c1b3 t1 t2 t3) t5 hstate
      (by rw [hna]; simp only [Option.getD_some]; omega)
    exact ⟨hok.1, hok.2.1, hok.2.2.2.1, hok.2.2.2.2.1, hok.2.2.2.2.2⟩

/-- Witness for C1 at `t1..t5 = 0, 1, 2, 3, 6000`. -/
theorem c1_breaker_witness :
    3 < 2 + 5000 ∧ 2 + 5000 ≤ 6000 ∧
    ((c1b3 0 1 2).state = BState.OPEN ∧
     (c1b3 0 1 2).nextAttempt = some (2 + 5000) ∧
     (∀ op : OpBehavior,
       (execute (c1b3 0 1 2) 3 op).result = Except.error ExecError.CircuitOpen ∧
       (execute (c1b3 0 1 2) 3 op).invoked = false ∧
       (execute (c1b3 0 1 2) 3 op).breaker.state = BState.OPEN) ∧
     (execute (c1b3 0 1 2) 6000 OpBehavior.succeeds).invoked = true ∧
     (execute (c1b3 0 1 2) 6000 OpBehavior.succeeds).stateAtCall = BState.HALF_OPEN ∧
     (execute (c1b3 0 1 2) 6000 OpBehavior.succeeds).breaker.state = BState.CLOSED ∧
     (execute (c1b3 0 1 2) 6000 OpBehavior.succeeds).breaker.failures = 0 ∧
     (execute (c1b3 0 1 2) 6000 OpBehavior.succeeds).breaker.nextAttempt = none) :=
  ⟨by decide, by decide, c1_breaker_cycle 0 1 2 3 6000 (by decide) (by decide)⟩

/-! ## C4: `nextAttempt` is non-null iff the state is `OPEN` -/

/-- The claimed breaker invariant. -/
def invNA (b : Breaker) : Prop :=
  b.nextAttempt ≠ none ↔ b.state = BState.OPEN

/-- The `metrics.timeouts++` performed when the guard timer fires
(line 108). -/
def timeoutsBump (b : Breaker) : Breaker :=
  { b with metrics := { b.metrics with timeouts := b.metrics.timeouts + 1 } }

theorem timeoutsBump_state (b : Breaker) : (timeoutsBump b).state = b.state := rfl

theorem timeoutsBump_nextAttempt (b : Breaker) :
    (timeoutsBump b).nextAttempt = b.nextAttempt := rfl

theorem runOp_hangs (b : Breaker) (now : Nat) :
    runOp b now OpBehavior.hangs =
      { result := Except.error ExecError.OperationTimeout,
        breaker := onFailure (timeoutsBump b) now,
        invoked := true, stateAtCall := b.state } := rfl

theorem invNA_onSuccess (b : Breaker) (now : Nat)
    (hC : b.state = BState.CLOSED → b.nextAttempt = none)
    (hO : b.state = BState.OPEN → b.nextAttempt ≠ none) :
    invNA (onSuccess b now) := by
  rw [onSuccess_eq]
  by_cases hhalf : (successBump b now).state = BState.HALF_OPEN
  · rw [if_pos hhalf]
    unfold invNA
    rw [(setState_closed_fields _ now).1, (setState_closed_fields _ now).2.1]
    simp
  · rw [if_neg hhalf]
    unfold invNA
    rw [successBump_state, successBump_nextAttempt]
    rw [successBump_state] at hhalf
    cases hbs : b.state
    · simp [hC hbs]
    · simp [hO hbs]
    · exact absurd hbs hhalf

theorem invNA_onFailure (b : Breaker) (now : Nat)
    (hC : b.state = BState.CLOSED → b.nextAttempt = none)
    (hO : b.state = BState.OPEN → b.nextAttempt ≠ none) :
    invNA (onFailure b now) := by
  rw [onFailure_eq]
  by_cases hhalf : (failBump b now).state = BState.HALF_OPEN
  · rw [if_pos hhalf]
    unfold invNA
    rw [(setState_open_fields _ now).1, (setState_open_fields _ now).2.1]
    simp
  · rw [if_neg hhalf]
    by_cases hclosed : (failBump b now).state = BState.CLOSED
    · rw [if_pos hclosed]
      by_cases hso : shouldOpen (failBump b now) now
      · rw [if_pos hso]
        unfold invNA
        rw [(setState_open_fields _ now).1, (setState_open_fields _ now).2.1]
        simp
      · rw [if_neg hso]
        unfold invNA
        rw [failBump_state, failBump_nextAttempt]
        rw [failBump_state] at hclosed
        simp [hclosed, hC hclosed]
    · rw [if_neg hclosed]
      unfold invNA
      rw [failBump_state, failBump_nextAttempt]
      rw [failBump_state] at hclosed hhalf
      cases hbs : b.state
      · exact absurd hbs hclosed
      · simp [hbs, hO hbs]
      · exact absurd hbs hhalf

theorem invNA_runOp (b : Breaker) (now : Nat) (op : OpBehavior)
    (hC : b.state = BState.CLOSED → b.nextAttempt = none)
    (hO : b.state = BState.OPEN → b.nextAttempt ≠ none) :
    invNA (runOp b now op).breaker := by
  cases op
  · rw [runOp_succeeds]
    exact invNA_onSuccess b now hC hO
  · rw [runOp_fails]
    exact invNA_onFailure b now hC hO
  · rw [runOp_hangs]
    exact invNA_onFailure (timeoutsBump b) now
      (by rw [timeoutsBump_state, timeoutsBump_nextAttempt]; exact hC)
      (by rw [timeoutsBump_state, timeoutsBump_nextAttempt]; exact hO)

theorem invNA_execute (b : Breaker) (now : Nat) (op : OpBehavior)
    (h : invNA b) : invNA (execute b now op).breaker := by
  have hC : b.state = BState.CLOSED → b.nextAttempt = none := by
    intro hbs
    by_contra hne
    have := h.mp hne
    rw [hbs] at this
    cases this
  have hO : b.state = BState.OPEN → b.nextAttempt ≠ none := fun hbs => h.mpr hbs
  by_cases hopen : b.state = BState.OPEN
  · rw [execute_eq, totalBump_state, if_pos hopen, totalBump_nextAttempt]
    by_cases hn : b.nextAttempt.getD 0 ≤ now
    · rw [if_pos hn]
      apply invNA_runOp
      · rw [(setState_halfopen_fields _ now).1]
        intro hh
        cases hh
      · rw [(setState_halfopen_fields _ now).1]
        intro hh
        cases hh
    · rw [if_neg hn]
      unfold invNA
      show b.nextAttempt ≠ none ↔ b.state = BState.OPEN
      simp [hopen, hO hopen]
  · rw [execute_not_open b now op hopen]
    apply invNA_runOp
    · rw [totalBump_state, totalBump_nextAttempt]
      exact hC
    · rw [totalBump_state, totalBump_nextAttempt]
      exact hO

/-- C4 (confirmed): in every breaker state reachable by any sequence of
`execute`, `open`, `close` and `reset` calls from a fresh breaker,
`nextAttempt` is non-null exactly when the state is `OPEN` (so it is null in
`CLOSED` and in any reachable resting `HALF_OPEN` state). -/
theorem c4_nextAttempt_iff_open {cfg : CBConfig} {b : Breaker}
    (h : CBReachable cfg b) : b.nextAttempt ≠ none ↔ b.state = BState.OPEN := by
  induction h with
  | init => simp [mkBreaker]
  | step o hb ih =>
    cases o with
    | exec now op => exact invNA_execute _ now op ih
    | forceO now =>
      show invNA (forceOpen _ now)
      unfold invNA forceOpen
      rw [(setState_open_fields _ now).1, (setState_open_fields _ now).2.1]
      simp
    | forceC now =>
      show invNA (forceClose _ now)
      unfold invNA
      rw [show ∀ x : Breaker, (forceClose x now).state = BState.CLOSED from fun _ => rfl,
        show ∀ x : Breaker, (forceClose x now).nextAttempt = none from fun _ => rfl]
      simp
    | doReset =>
      show invNA (resetBreaker _)
      unfold invNA
      rw [show ∀ x : Breaker, (resetBreaker x).state = BState.CLOSED from fun _ => rfl,
        show ∀ x : Breaker, (resetBreaker x).nextAttempt = none from fun _ => rfl]
      simp

/-- Witness for C4 at a concrete reachable state (a fresh breaker forced
open at time 5). -/
theorem c4_invariant_witness :
    (applyOp (mkBreaker c1cfg) (CBOp.forceO 5)).nextAttempt ≠ none ↔
      (applyOp (mkBreaker c1cfg) (CBOp.forceO 5)).state = BState.OPEN :=
  c4_nextAttempt_iff_open (CBReachable.step (CBOp.forceO 5) CBReachable.init)

/-! ## C6: a timed-out operation is recorded as exactly one failure -/

theorem onFailure_counters (b : Breaker) (now : Nat) :
    (onFailure b now).metrics.failedRequests = b.metrics.failedRequests + 1 ∧
    (onFailure b now).metrics.timeouts = b.metrics.timeouts ∧
    (onFailure b now).metrics.successfulRequests = b.metrics.successfulRequests ∧
    (onFailure b now).successes = b.successes ∧
    (onFailure b now).failures = b.failures + 1 := by
  rw [onFailure_eq]
  by_cases h1 : (failBump b now).state = BState.HALF_OPEN
  · rw [if_pos h1]
    exact ⟨rfl, rfl, rfl, rfl, rfl⟩
  · rw [if_neg h1]
    by_cases h2 : (failBump b now).state = BState.CLOSED
    · rw [if_pos h2]
      by_cases h3 : shouldOpen (failBump b now) now
      · rw [if_pos h3]
        exact ⟨rfl, rfl, rfl, rfl, rfl⟩
      · rw [if_neg h3]
        exact ⟨rfl, rfl, rfl, rfl, rfl⟩
    · rw [if_neg h2]
      exact ⟨rfl, rfl, rfl, rfl, rfl⟩

/-- Any `execute` call that actually invokes a hanging operation records the
timeout as exactly one failure: `failedRequests` and `timeouts` go up by one,
the consecutive-failure counter goes up by one, and no success is recorded
for the timed-out call. -/
theorem execute_hangs_fields (b : Breaker) (now : Nat)
    (h : (execute b now OpBehavior.hangs).invoked = true) :
    (execute b now OpBehavior.hangs).result =
      Except.error ExecError.OperationTimeout ∧
    (execute b now OpBehavior.hangs).breaker.metrics.failedRequests =
      b.metrics.failedRequests + 1 ∧
    (execute b now OpBehavior.hangs).breaker.metrics.timeouts =
      b.metrics.timeouts + 1 ∧
    (execute b now OpBehavior.hangs).breaker.metrics.successfulRequests =
      b.metrics.successfulRequests ∧
    (execute b now OpBehavior.hangs).breaker.successes = b.successes ∧
    (execute b now OpBehavior.hangs).breaker.failures = b.failures + 1 := by
  by_cases hopen : b.state = BState.OPEN
  · rw [execute_eq, totalBump_state, if_pos hopen] at h ⊢
    by_cases hn : (totalBump b).nextAttempt.getD 0 ≤ now
    · rw [if_pos hn] at h ⊢
      rw [runOp_hangs]
      have hc := onFailure_counters
        (timeoutsBump (setState (totalBump b) now BState.HALF_OPEN)) now
      exact ⟨rfl, hc.1, hc.2.1, hc.2.2.1, hc.2.2.2.1, hc.2.2.2.2⟩
    · rw [if_neg hn] at h
      simp at h
  · rw [execute_not_open b now OpBehavior.hangs hopen] at h ⊢
    rw [runOp_hangs]
    have hc := onFailure_counters (timeoutsBump (totalBump b)) now
    exact ⟨rfl, hc.1, hc.2.1, hc.2.2.1, hc.2.2.2.1, hc.2.2.2.2⟩

/-- C6 (confirmed): an operation that does not resolve within the configured
timeout is recorded, per invoking `execute` call, as exactly one failure —
`failedRequests` and `timeouts` go up by exactly one, with no success
recorded for the timed-out call — and two such invocations record exactly
two failures. -/
theorem c6_timeout_single_failure (b : Breaker) (t1 t2 : Nat)
    (h1 : (execute b t1 OpBehavior.hangs).invoked = true)
    (h2 : (execute (execute b t1 OpBehavior.hangs).breaker t2
      OpBehavior.hangs).invoked = true) :
    (execute b t1 OpBehavior.hangs).result =
      Except.error ExecError.OperationTimeout ∧
    (execute b t1 OpBehavior.hangs).breaker.metrics.failedRequests =
      b.metrics.failedRequests + 1 ∧
    (execute b t1 OpBehavior.hangs).breaker.metrics.timeouts =
      b.metrics.timeouts + 1 ∧
    (execute b t1 OpBehavior.hangs).breaker.metrics.successfulRequests =
      b.metrics.successfulRequests ∧
    (execute b t1 OpBehavior.hangs).breaker.successes = b.successes ∧
    (execute b t1 OpBehavior.hangs).breaker.failures = b.failures + 1 ∧
    (execute (execute b t1 OpBehavior.hangs).breaker t2
      OpBehavior.hangs).breaker.metrics.failedRequests =
      b.metrics.failedRequests + 2 ∧
    (execute (execute b t1 OpBehavior.hangs).breaker t2
      OpBehavior.hangs).breaker.metrics.timeouts = b.metrics.timeouts + 2 ∧
    (execute (execute b t1 OpBehavior.hangs).breaker t2
      OpBehavior.hangs).breaker.failures = b.failures + 2 ∧
    (execute (execute b t1 OpBehavior.hangs).breaker t2
      OpBehavior.hangs).result = Except.error ExecError.OperationTimeout := by
  have e1 := execute_hangs_fields b t1 h1
  have e2 := execute_hangs_fields (execute b t1 OpBehavior.hangs).breaker t2 h2
  refine ⟨e1.1, e1.2.1, e1.2.2.1, e1.2.2.2.1, e1.2.2.2.2.1, e1.2.2.2.2.2,
    ?_, ?_, ?_, e2.1⟩
  · rw [e2.2.1, e1.2.1]
  · rw [e2.2.2.1, e1.2.2.1]
  · rw [e2.2.2.2.2.2, e1.2.2.2.2.2]

/-- Witness for C6: a fresh threshold-3 breaker, hanging operations at times
0 and 1 (both calls are invoked, the breaker staying `CLOSED`). -/
theorem c6_timeout_witness :
    (execute (mkBreaker c1cfg) 0 OpBehavior.hangs).invoked = true ∧
    (execute (execute (mkBreaker c1cfg) 0 OpBehavior.hangs).breaker 1
      OpBehavior.hangs).invoked = true ∧
    ((execute (mkBreaker c1cfg) 0 OpBehavior.hangs).breaker.metrics.failedRequests =
      (mkBreaker c1cfg).metrics.failedRequests + 1 ∧
     (execute (execute (mkBreaker c1cfg) 0 OpBehavior.hangs).breaker 1
       OpBehavior.hangs).breaker.metrics.failedRequests =
      (mkBreaker c1cfg).metrics.failedRequests + 2 ∧
     (execute (execute (mkBreaker c1cfg) 0 OpBehavior.hangs).breaker 1
       OpBehavior.hangs).breaker.metrics.timeouts =
      (mkBreaker c1cfg).metrics.timeouts + 2) :=
  ⟨by decide, by decide,
    (c6_timeout_single_failure (mkBreaker c1cfg) 0 1 (by decide) (by decide)).2.1,
    (c6_timeout_single_failure (mkBreaker c1cfg) 0 1 (by decide) (by decide)).2.2.2.2.2.2.1,
    (c6_timeout_single_failure (mkBreaker c1cfg) 0 1 (by decide) (by decide)).2.2.2.2.2.2.2.1⟩

/-! ## Release lemmas and C2 / C9 / C10 -/

theorem releasePage_not_found (p : Pool) (sid : Nat) (a b : Bool)
    (h : p.sessions.lookup sid = none) : releasePage p sid a b = p := by
  unfold releasePage
  rw [h]

theorem releasePage_found_ok (p : Pool) (sid : Nat) (s : SessionRec)
    (h : p.sessions.lookup sid = some s) :
    releasePage p sid true true =
      { p with sessions := assocErase sid p.sessions,
               metrics := { p.metrics with
                 activePages := p.metrics.activePages - 1 } } := by
  unfold releasePage
  rw [h]
  rfl

theorem releasePage_found_err (p : Pool) (sid : Nat) (s : SessionRec)
    (a b : Bool) (h : p.sessions.lookup sid = some s)
    (hfail : a = false ∨ b = false) : releasePage p sid a b = p := by
  unfold releasePage
  rw [h]
  rcases hfail with hf | hf
  · rw [hf]
    rfl
  · rw [hf]
    cases a <;> rfl

/-- A healthy fresh browser record, for concrete scenario pools. -/
def healthyB : BrowserRec :=
  { contextsLen := 0, isHealthy := true, createdAt := 0, lastHealthCheck := 0 }

/-- A pool holding one browser and one registered session (id 3), as left by
one successful acquire. -/
def poolW : Pool :=
  { config := defaultPoolConfig
    browsers := [(1, healthyB)]
    sessions := [(3, { browserId := 1, createdAt := 0, lastActivity := 0 })]
    metrics := { created := 1, destroyed := 0, crashed := 0, healthy := 1,
                 unhealthy := 0, activePages := 1, totalRequests := 1,
                 failedRequests := 0 }
    isShuttingDown := false
    healthTimerActive := true }

/-- C2 (code_bug evidence): on a freshly initialized pool (two pre-warmed
handles, tracked `contexts` both empty) one successful `getPage` registers a
session and returns a page, yet no handle's tracked session count is
incremented — the sum of `active_session_count` across handles stays 0 while
`|sessions| = 1`, because `getPage` never updates `browser.contexts` (it is
only re-synced by a later health check). -/
theorem c2_sum_counts_failing_input :
    (getPage (initPool (mkPool defaultPoolConfig) 0) 7 100 true true true).2 =
      Except.ok () ∧
    (getPage (initPool (mkPool defaultPoolConfig) 0) 7 100 true
      true true).1.sessions.length = 1 ∧
    sumActive (getPage (initPool (mkPool defaultPoolConfig) 0) 7 100 true
      true true).1 = 0 ∧
    (getPage (initPool (mkPool defaultPoolConfig) 0) 7 100 true
      true true).1.browsers.length = 2 :=
  ⟨rfl, rfl, rfl, rfl⟩

/-- C9 (confirmed): `releasePage` is idempotent — after a successful release
of a session id, a second `releasePage` on the same id (with any close
outcomes) returns the pool unchanged: nothing further is removed and no
counter (in particular `activePages`) is decremented again; and on a pool
where the id is not registered, `releasePage` is a logged no-op. -/
theorem c9_release_idempotent (p : Pool) (sid : Nat) (a b : Bool) :
    releasePage (releasePage p sid true true) sid a b =
      releasePage p sid true true ∧
    (p.sessions.lookup sid = none → releasePage p sid a b = p) := by
  constructor
  · cases h : p.sessions.lookup sid with
    | none =>
      rw [releasePage_not_found p sid true true h, releasePage_not_found p sid a b h]
    | some s =>
      rw [releasePage_found_ok p sid s h]
      exact releasePage_not_found _ sid a b (lookup_assocErase sid _)
  · intro h
    exact releasePage_not_found p sid a b h

/-- Witness for C9: double release of session 3 on `poolW`, and a release of
an unknown id on a fresh pool. -/
theorem c9_release_witness :
    releasePage (releasePage poolW 3 true true) 3 false false =
      releasePage poolW 3 true true ∧
    ((mkPool defaultPoolConfig).sessions.lookup 3 = none ∧
     releasePage (mkPool defaultPoolConfig) 3 true false = mkPool defaultPoolConfig) :=
  ⟨(c9_release_idempotent poolW 3 false false).1,
   rfl, (c9_release_idempotent (mkPool defaultPoolConfig) 3 true false).2 rfl⟩

/-- C10 (confirmed): for a registered session, a throwing `page.close()` or
`context.close()` is swallowed by `releasePage`, which returns normally with
the session still registered and `activePages` undecremented (the pool state
is exactly unchanged; only when both closes succeed is the session removed
and the counter decremented). -/
theorem c10_release_error_keeps_session (p : Pool) (sid : Nat) (s : SessionRec)
    (bb : Bool) (h : p.sessions.lookup sid = some s) :
    releasePage p sid false bb = p ∧
    releasePage p sid true false = p ∧
    (releasePage p sid true true).sessions = assocErase sid p.sessions ∧
    (releasePage p sid true true).sessions.lookup sid = none ∧
    (releasePage p sid true true).metrics.activePages =
      p.metrics.activePages - 1 := by
  refine ⟨releasePage_found_err p sid s false bb h (Or.inl rfl),
    releasePage_found_err p sid s true false h (Or.inr rfl), ?_, ?_, ?_⟩
  · rw [releasePage_found_ok p sid s h]
  · rw [releasePage_found_ok p sid s h]
    exact lookup_assocErase sid _
  · rw [releasePage_found_ok p sid s h]

/-- Witness for C10 on `poolW` and its registered session 3. -/
theorem c10_release_witness :
    poolW.sessions.lookup 3 =
      some { browserId := 1, createdAt := 0, lastActivity := 0 } ∧
    (releasePage poolW 3 false true = poolW ∧
     releasePage poolW 3 true false = poolW ∧
     (releasePage poolW 3 true true).metrics.activePages =
       poolW.metrics.activePages - 1) :=
  ⟨rfl,
   (c10_release_error_keeps_session poolW 3
     { browserId := 1, createdAt := 0, lastActivity := 0 } true rfl).1,
   (c10_release_error_keeps_session poolW 3
     { browserId := 1, createdAt := 0, lastActivity := 0 } true rfl).2.1,
   (c10_release_error_keeps_session poolW 3
     { browserId := 1, createdAt := 0, lastActivity := 0 } true rfl).2.2.2.2⟩

/-! ## C3: the capacity wait is a 100 ms poll with a hard-coded 10 s bound -/

theorem releasePage_browsers (p : Pool) (sid : Nat) (a b : Bool) :
    (releasePage p sid a b).browsers = p.browsers := by
  unfold releasePage
  cases h : p.sessions.lookup sid with
  | none => rfl
  | some s => cases a <;> cases b <;> rfl

theorem waitScan_none (snap : Nat → List (Nat × BrowserRec)) (mp : Nat)
    (h : ∀ k, selectBrowser (snap k) mp = none) :
    ∀ r k, waitScan snap mp r k = Except.error (100 * (r + k)) := by
  intro r
  induction r with
  | zero =>
    intro k
    simp [waitScan]
  | succ r ih =>
    intro k
    have hstep : waitScan snap mp (r + 1) k = waitScan snap mp r (k + 1) := by
      have e : waitScan snap mp (r + 1) k =
          (match selectBrowser (snap k) mp with
           | some (bid, _) => Except.ok (100 * k, bid)
           | none => waitScan snap mp r (k + 1)) := rfl
      rw [e, h k]
    rw [hstep, ih (k + 1)]

    congr 1
    omega

/-- A browser record whose tracked `contexts` is at the default `maxPages`
capacity: the scan loops skip it. -/
def busyB : BrowserRec :=
  { contextsLen := 10, isHealthy := true, createdAt := 0, lastHealthCheck := 0 }

/-- A default-config pool at `maxBrowsers` handles, every handle at tracked
capacity, with one registered session (id 42) on handle 1. -/
def c3pool : Pool :=
  { config := defaultPoolConfig
    browsers := [(1, busyB), (2, busyB), (3, busyB), (4, busyB), (5, busyB)]
    sessions := [(42, { browserId := 1, createdAt := 0, lastActivity := 0 })]
    metrics := { created := 5, destroyed := 0, crashed := 0, healthy := 5,
                 unhealthy := 0, activePages := 1, totalRequests := 1,
                 failedRequests := 0 }
    isShuttingDown := false
    healthTimerActive := true }

/-- C3 (counterexample): on a full pool (`|handles| = maxBrowsers`, every
handle at tracked capacity) the wait loop throws at elapsed 10000 ms — the
hard-coded `waitForAvailableBrowser` default, not any configured value (the
pool's only configured timeout is 30000 ms and no acquire-timeout option
exists) — and a completed `releasePage` removes the session without touching
any handle's tracked context count, so the scan still finds no capacity:
a release does not unblock a waiting acquire, refuting both the
"until a release frees a slot" and the "after exactly the configured
acquire_timeout" parts of the claim. -/
theorem c3_counterexample :
    c3pool.browsers.length = defaultPoolConfig.maxBrowsers ∧
    selectBrowser c3pool.browsers c3pool.config.maxPages = none ∧
    (getAvailableBrowserSeq c3pool 0 true).2 = Except.error PoolError.WaitTimeout ∧
    waitForAvailableBrowser (fun _ => c3pool.browsers) c3pool.config.maxPages
      waitTimeoutDefault = Except.error 10000 ∧
    defaultPoolConfig.timeout = 30000 ∧
    (releasePage c3pool 42 true true).sessions = [] ∧
    (releasePage c3pool 42 true true).browsers = c3pool.browsers ∧
    selectBrowser (releasePage c3pool 42 true true).browsers
      c3pool.config.maxPages = none := by
  refine ⟨rfl, rfl, rfl, ?_, rfl, rfl, rfl, rfl⟩
  unfold waitForAvailableBrowser waitTimeoutDefault
  rw [waitScan_none (fun _ => c3pool.browsers) c3pool.config.maxPages
    (fun _ => rfl) _ 0]

/-- C3 (amended, theorem): whenever no scan ever sees a healthy handle with
tracked capacity, `waitForAvailableBrowser` polls every 100 ms and throws at
elapsed `100 * ⌈timeout/100⌉`; with the hard-coded default it throws at
exactly 10000 ms regardless of the pool configuration; and `releasePage`
never changes the browser table, so a release by itself cannot make the scan
succeed. -/
theorem c3_wait_hardcoded (snap : Nat → List (Nat × BrowserRec)) (mp tmo : Nat)
    (h : ∀ k, selectBrowser (snap k) mp = none) :
    waitForAvailableBrowser snap mp tmo =
      Except.error (100 * ((tmo + 99) / 100)) ∧
    waitForAvailableBrowser snap mp waitTimeoutDefault = Except.error 10000 ∧
    (∀ (p : Pool) (sid : Nat) (a b : Bool),
      (releasePage p sid a b).browsers = p.browsers) := by
  refine ⟨?_, ?_, fun p sid a b => releasePage_browsers p sid a b⟩
  · unfold waitForAvailableBrowser
    rw [waitScan_none snap mp h _ 0]
    norm_num
  · unfold waitForAvailableBrowser waitTimeoutDefault
    rw [waitScan_none snap mp h _ 0]

/-- Witness for C3's amended theorem: an always-empty browser table, timeout
250 ms (throw at 300 ms, the next 100 ms poll boundary). -/
theorem c3_wait_witness :
    waitForAvailableBrowser (fun _ => []) 10 250 = Except.error 300 ∧
    waitForAvailableBrowser (fun _ => []) 10 waitTimeoutDefault =
      Except.error 10000 ∧
    (releasePage (mkPool defaultPoolConfig) 1 true true).browsers =
      (mkPool defaultPoolConfig).browsers :=
  ⟨(c3_wait_hardcoded (fun _ => []) 10 250 (fun _ => rfl)).1,
   (c3_wait_hardcoded (fun _ => []) 10 250 (fun _ => rfl)).2.1,
   (c3_wait_hardcoded (fun _ => []) 10 250 (fun _ => rfl)).2.2
     (mkPool defaultPoolConfig) 1 true true⟩

/-! ## C5: nothing prevents overlapping health-monitor runs -/

/-- C5 (counterexample): with the default 30000 ms `healthCheckInterval` and
a health-check run that takes 70000 ms, at time 60000 the runs started at
ticks 1 and 2 are both executing: two runs are in progress at once, whereas
the claim says the second tick's run is skipped while one is in progress.
The `setInterval` callback of `startHealthMonitoring` is unconditional and
the class keeps no in-progress flag, so every tick starts a run. -/
theorem c5_counterexample :
    activeHealthRuns 30000 (fun _ => 70000) 2 60000 = 2 ∧
    1 < activeHealthRuns 30000 (fun _ => 70000) 2 60000 := by
  constructor <;> decide

/-- C5 (amended, theorem): for any tick interval `i` and run durations `d`,
if the first run outlasts the interval (`i < d 0`) then at time `2*i` — the
moment the second tick fires — both the first and the second run are
executing: a new run starts at every tick regardless of a run being in
progress. -/
theorem c5_overlapping_runs (i : Nat) (d : Nat → Nat)
    (h0 : i < d 0) (h1 : 0 < d 1) :
    activeHealthRuns i d 2 (2 * i) = 2 := by
  unfold activeHealthRuns
  have e : List.range 2 = [0, 1] := rfl
  rw [e]
  have hA : healthRunActiveAt i d 0 (2 * i) = true := by
    unfold healthRunActiveAt healthRunStart
    simp only [Bool.and_eq_true, decide_eq_true_eq]
    omega
  have hB : healthRunActiveAt i d 1 (2 * i) = true := by
    unfold healthRunActiveAt healthRunStart
    simp only [Bool.and_eq_true, decide_eq_true_eq]
    omega
  simp [List.filter, hA, hB]

/-- Witness for C5's amended theorem at interval 100 and constant run
duration 300. -/
theorem c5_overlap_witness : activeHealthRuns 100 (fun _ => 300) 2 200 = 2 :=
  c5_overlapping_runs 100 (fun _ => 300) (by decide) (by decide)

/-! ## C7: only healthy, still-registered handles are ever selected -/

theorem selectBrowser_healthy (bs : List (Nat × BrowserRec)) (mp bid : Nat)
    (b : BrowserRec) (h : selectBrowser bs mp = some (bid, b)) :
    b.isHealthy = true ∧ (bid, b) ∈ bs := by
  unfold selectBrowser at h
  have hmem := List.mem_of_find?_eq_some h
  have hp := List.find?_some h
  simp only [Bool.and_eq_true, decide_eq_true_eq] at hp
  exact ⟨hp.1, hmem⟩

theorem gab_select (p : Pool) (now : Nat) (lo : Bool) (kid : Nat)
    (kb : BrowserRec)
    (hsel : selectBrowser p.browsers p.config.maxPages = some (kid, kb)) :
    getAvailableBrowserSeq p now lo = (p, Except.ok kid) := by
  unfold getAvailableBrowserSeq
  rw [hsel]

theorem gab_create (p : Pool) (now : Nat)
    (hsel : selectBrowser p.browsers p.config.maxPages = none)
    (hlen : p.browsers.length < p.config.maxBrowsers) :
    getAvailableBrowserSeq p now true =
      ((createBrowser p now).1, Except.ok (createBrowser p now).2) := by
  unfold getAvailableBrowserSeq
  rw [hsel]
  rw [if_pos hlen, if_pos rfl]

theorem gab_nolaunch (p : Pool) (now : Nat)
    (hsel : selectBrowser p.browsers p.config.maxPages = none)
    (hlen : p.browsers.length < p.config.maxBrowsers) :
    getAvailableBrowserSeq p now false =
      (p, Except.error PoolError.DriverLaunchFailed) := by
  unfold getAvailableBrowserSeq
  rw [hsel]
  rw [if_pos hlen, if_neg (by simp)]

theorem gab_full (p : Pool) (now : Nat) (lo : Bool)
    (hsel : selectBrowser p.browsers p.config.maxPages = none)
    (hlen : ¬ p.browsers.length < p.config.maxBrowsers) :
    getAvailableBrowserSeq p now lo = (p, Except.error PoolError.WaitTimeout) := by
  unfold getAvailableBrowserSeq
  rw [hsel]
  rw [if_neg hlen]

theorem getAvailableBrowserSeq_healthy (p : Pool) (now : Nat) (lo : Bool)
    (bid : Nat) (h : (getAvailableBrowserSeq p now lo).2 = Except.ok bid) :
    ∃ b, (bid, b) ∈ (getAvailableBrowserSeq p now lo).1.browsers ∧
      b.isHealthy = true := by
  cases hsel : selectBrowser p.browsers p.config.maxPages with
  | some kv =>
    obtain ⟨kid, kb⟩ := kv
    rw [gab_select p now lo kid kb hsel] at h ⊢
    have h2 : Except.ok kid = Except.ok bid := h
    injection h2 with h3
    subst h3
    exact ⟨kb, (selectBrowser_healthy _ _ _ _ hsel).2,
      (selectBrowser_healthy _ _ _ _ hsel).1⟩
  | none =>
    by_cases hlen : p.browsers.length < p.config.maxBrowsers
    · cases lo with
      | true =>
        rw [gab_create p now hsel hlen] at h ⊢
        have h2 : Except.ok (createBrowser p now).2 = Except.ok bid := h
        injection h2 with h3
        subst h3
        exact ⟨{ contextsLen := 0, isHealthy := true, createdAt := now,
                 lastHealthCheck := now },
          mem_assocSet_self now _ p.browsers, rfl⟩
      | false =>
        rw [gab_nolaunch p now hsel hlen] at h
        simp at h
    · rw [gab_full p now lo hsel hlen] at h
      simp at h

theorem waitScan_ok_healthy (snap : Nat → List (Nat × BrowserRec)) (mp : Nat) :
    ∀ r k t bid, waitScan snap mp r k = Except.ok (t, bid) →
      ∃ b, (bid, b) ∈ snap (t / 100) ∧ b.isHealthy = true := by
  intro r
  induction r with
  | zero =>
    intro k t bid h
    cases h
  | succ r ih =>
    intro k t bid h
    have e : waitScan snap mp (r + 1) k =
        (match selectBrowser (snap k) mp with
         | some (bid2, _) => Except.ok (100 * k, bid2)
         | none => waitScan snap mp r (k + 1)) := rfl
    rw [e] at h
    cases hsel : selectBrowser (snap k) mp with
    | some kv =>
      obtain ⟨kid, kb⟩ := kv
      rw [hsel] at h
      have h2 : Except.ok ((100 * k : Nat), kid) = Except.ok (t, bid) := h
      injection h2 with h3
      have ht : 100 * k = t := congrArg Prod.fst h3
      have hbid : kid = bid := congrArg Prod.snd h3
      subst hbid
      subst ht
      have hk : 100 * k / 100 = k := Nat.mul_div_cancel_left k (by norm_num)
      rw [hk]
      exact ⟨kb, (selectBrowser_healthy _ _ _ _ hsel).2,
        (selectBrowser_healthy _ _ _ _ hsel).1⟩
    | none =>
      rw [hsel] at h
      exact ih (k + 1) t bid h

theorem checkBrowserHealth_probe_fail (b : BrowserRec) (now live : Nat)
    (c pok : Bool) (h : c = false ∨ pok = false) :
    (checkBrowserHealth b now c live pok).isHealthy = false := by
  rcases h with h | h
  · subst h
    rfl
  · subst h
    cases c
    · rfl
    · rfl

theorem removeBrowser_lookup (p : Pool) (bid : Nat) :
    ((removeBrowser p bid).browsers.lookup bid) = none := by
  unfold removeBrowser
  cases h : p.browsers.lookup bid with
  | none => exact h
  | some s => exact lookup_assocErase bid _

/-- C7 (confirmed): (1) the scan shared by `getAvailableBrowser` and the wait
loop only ever returns a browser that is in the table with `isHealthy` true
at selection time; (2) every browser id handed out by `getAvailableBrowser`
belongs, in the resulting pool, to a record with `isHealthy` true; (3) same
for a browser returned by the polling wait, in the table as observed by the
succeeding scan; (4) a failed liveness probe (or a disconnect observed as
`isConnected()` false) marks the record unhealthy, so it is skipped by every
subsequent scan; (5) a destroyed (removed) handle is no longer in the table,
so it can never be selected again. -/
theorem c7_healthy_selection :
    (∀ (bs : List (Nat × BrowserRec)) (mp bid : Nat) (b : BrowserRec),
      selectBrowser bs mp = some (bid, b) → b.isHealthy = true ∧ (bid, b) ∈ bs) ∧
    (∀ (p : Pool) (now : Nat) (lo : Bool) (bid : Nat),
      (getAvailableBrowserSeq p now lo).2 = Except.ok bid →
      ∃ b, (bid, b) ∈ (getAvailableBrowserSeq p now lo).1.browsers ∧
        b.isHealthy = true) ∧
    (∀ (snap : Nat → List (Nat × BrowserRec)) (mp tmo t bid : Nat),
      waitForAvailableBrowser snap mp tmo = Except.ok (t, bid) →
      ∃ b, (bid, b) ∈ snap (t / 100) ∧ b.isHealthy = true) ∧
    (∀ (b : BrowserRec) (now live : Nat) (c pok : Bool),
      c = false ∨ pok = false →
      (checkBrowserHealth b now c live pok).isHealthy = false) ∧
    (∀ (p : Pool) (bid : Nat),
      ((removeBrowser p bid).browsers.lookup bid) = none) := by
  refine ⟨selectBrowser_healthy, getAvailableBrowserSeq_healthy, ?_,
    checkBrowserHealth_probe_fail, removeBrowser_lookup⟩
  intro snap mp tmo t bid h
  exact waitScan_ok_healthy snap mp _ 0 t bid h

/-- Witness for C7 at concrete inputs: a one-browser table, a pool that
reuses that browser, a wait that succeeds on the first scan, a failed probe,
and a removal. -/
theorem c7_selection_witness :
    (healthyB.isHealthy = true ∧ (1, healthyB) ∈ [(1, healthyB)]) ∧
    (∃ b, (1, b) ∈ (getAvailableBrowserSeq poolW 0 true).1.browsers ∧
      b.isHealthy = true) ∧
    (∃ b, (1, b) ∈ (fun _ => [(1, healthyB)] : Nat → List (Nat × BrowserRec))
      (0 / 100) ∧ b.isHealthy = true) ∧
    (checkBrowserHealth healthyB 5 true 0 false).isHealthy = false ∧
    ((removeBrowser poolW 1).browsers.lookup 1) = none :=
  ⟨c7_healthy_selection.1 [(1, healthyB)] 10 1 healthyB rfl,
   c7_healthy_selection.2.1 poolW 0 true 1 rfl,
   c7_healthy_selection.2.2.1 (fun _ => [(1, healthyB)]) 10 250 0 1 rfl,
   c7_healthy_selection.2.2.2.1 healthyB 5 0 true false (Or.inr rfl),
   c7_healthy_selection.2.2.2.2 poolW 1⟩

/-! ## C8: shutdown behaviour -/

theorem mem_assocErase (k : Nat) :
    ∀ (l : List (Nat × α)) (kv : Nat × α), kv ∈ assocErase k l →
      kv ∈ l ∧ kv.1 ≠ k := by
  intro l
  induction l with
  | nil =>
    intro kv h
    cases h
  | cons kv0 rest ih =>
    intro kv h
    have e : assocErase k (kv0 :: rest) =
        if kv0.1 = k then assocErase k rest else kv0 :: assocErase k rest := rfl
    by_cases h0 : kv0.1 = k
    · rw [e, if_pos h0] at h
      exact ⟨List.mem_cons_of_mem kv0 (ih kv h).1, (ih kv h).2⟩
    · rw [e, if_neg h0] at h
      rcases List.mem_cons.mp h with h1 | h1
      · subst h1
        exact ⟨List.mem_cons_self kv rest, h0⟩
      · exact ⟨List.mem_cons_of_mem kv0 (ih kv h1).1, (ih kv h1).2⟩

theorem key_ne_of_lookup_none (k : Nat) :
    ∀ l : List (Nat × α), l.lookup k = none →
      ∀ kv ∈ l, kv.1 ≠ k := by
  intro l
  induction l with
  | nil =>
    intro _ kv h
    cases h
  | cons kv0 rest ih =>
    intro hl kv h
    rw [List.lookup] at hl
    by_cases h0 : kv0.1 = k
    · rw [show (k == kv0.1) = true by simp [h0]] at hl
      cases hl
    · rw [show (k == kv0.1) = false by simp; omega] at hl
      rcases List.mem_cons.mp h with h1 | h1
      · subst h1
        exact h0
      · exact ih hl kv h1

theorem releasePage_flags (p : Pool) (sid : Nat) (a b : Bool) :
    (releasePage p sid a b).isShuttingDown = p.isShuttingDown ∧
    (releasePage p sid a b).healthTimerActive = p.healthTimerActive := by
  unfold releasePage
  cases h : p.sessions.lookup sid with
  | none => exact ⟨rfl, rfl⟩
  | some s => cases a <;> cases b <;> exact ⟨rfl, rfl⟩

theorem removeBrowser_other (p : Pool) (bid : Nat) :
    (removeBrowser p bid).sessions = p.sessions ∧
    (removeBrowser p bid).isShuttingDown = p.isShuttingDown ∧
    (removeBrowser p bid).healthTimerActive = p.healthTimerActive := by
  unfold removeBrowser
  cases h : p.browsers.lookup bid with
  | none => exact ⟨rfl, rfl, rfl⟩
  | some s => exact ⟨rfl, rfl, rfl⟩

theorem releasePage_sessions_sub (p : Pool) (sid : Nat) (a b : Bool) :
    ∀ kv ∈ (releasePage p sid a b).sessions, kv ∈ p.sessions := by
  intro kv h
  unfold releasePage at h
  cases hl : p.sessions.lookup sid with
  | none =>
    rw [hl] at h
    exact h
  | some s =>
    rw [hl] at h
    cases a with
    | false => exact h
    | true =>
      cases b with
      | false => exact h
      | true => exact (mem_assocErase sid p.sessions kv h).1

theorem foldl_pool_pres (f : Pool → Nat → Pool) (P : Pool → Prop)
    (hf : ∀ q k, P q → P (f q k)) :
    ∀ (l : List Nat) (q : Pool), P q → P (l.foldl f q) := by
  intro l
  induction l with
  | nil =>
    intro q h
    exact h
  | cons k rest ih =>
    intro q h
    exact ih (f q k) (hf q k h)

theorem foldl_release_empty (co : Nat → Bool × Bool)
    (hco : ∀ sid, co sid = (true, true)) :
    ∀ (keys : List Nat) (q : Pool), (∀ kv ∈ q.sessions, kv.1 ∈ keys) →
      ((keys.foldl
        (fun acc sid => releasePage acc sid (co sid).1 (co sid).2) q)).sessions
        = [] := by
  intro keys
  induction keys with
  | nil =>
    intro q h
    exact List.eq_nil_iff_forall_not_mem.mpr
      (fun kv hkv => absurd (h kv hkv) (List.not_mem_nil _))
  | cons k rest ih =>
    intro q h
    rw [List.foldl_cons]
    apply ih
    intro kv hkv
    have hc1 : (co k).1 = true := by rw [hco k]
    have hc2 : (co k).2 = true := by rw [hco k]
    rw [hc1, hc2] at hkv
    unfold releasePage at hkv
    cases hl : q.sessions.lookup k with
    | none =>
      rw [hl] at hkv
      have hne := key_ne_of_lookup_none k q.sessions hl kv hkv
      rcases List.mem_cons.mp (h kv hkv) with h1 | h1
      · exact absurd h1 hne
      · exact h1
    | some s =>
      rw [hl] at hkv
      have hm := mem_assocErase k q.sessions kv hkv
      rcases List.mem_cons.mp (h kv hm.1) with h1 | h1
      · exact absurd h1 hm.2
      · exact h1

theorem removeBrowser_browsers_sub (p : Pool) (bid : Nat) :
    ∀ kv ∈ (removeBrowser p bid).browsers, kv ∈ p.browsers ∧ kv.1 ≠ bid := by
  intro kv h
  unfold removeBrowser at h
  cases hl : p.browsers.lookup bid with
  | none =>
    rw [hl] at h
    exact ⟨h, key_ne_of_lookup_none bid p.browsers hl kv h⟩
  | some s =>
    rw [hl] at h
    exact mem_assocErase bid p.browsers kv h

theorem foldl_remove_empty :
    ∀ (keys : List Nat) (q : Pool), (∀ kv ∈ q.browsers, kv.1 ∈ keys) →
      ((keys.foldl (fun acc bid => removeBrowser acc bid) q)).browsers = [] := by
  intro keys
  induction keys with
  | nil =>
    intro q h
    exact List.eq_nil_iff_forall_not_mem.mpr
      (fun kv hkv => absurd (h kv hkv) (List.not_mem_nil _))
  | cons k rest ih =>
    intro q h
    rw [List.foldl_cons]
    apply ih
    intro kv hkv
    have hm := removeBrowser_browsers_sub q k kv hkv
    rcases List.mem_cons.mp (h kv hm.1) with h1 | h1
    · exact absurd h1 hm.2
    · exact h1

theorem releaseAll_sessions_empty (p : Pool) (co : Nat → Bool × Bool)
    (hco : ∀ sid, co sid = (true, true)) :
    (releaseAll p co).sessions = [] :=
  foldl_release_empty co hco (p.sessions.map Prod.fst) p
    (fun _ hkv => List.mem_map_of_mem Prod.fst hkv)

theorem removeAll_browsers_empty (p : Pool) : (removeAll p).browsers = [] :=
  foldl_remove_empty (p.browsers.map Prod.fst) p
    (fun _ hkv => List.mem_map_of_mem Prod.fst hkv)

theorem getPage_shutting (p : Pool) (hsd : p.isShuttingDown = true)
    (sid now : Nat) (lo c pg : Bool) :
    (getPage p sid now lo c pg).2 = Except.error PoolError.PoolShuttingDown := by
  unfold getPage
  rw [if_pos (show (bumpTotal p).isShuttingDown = true from hsd)]

theorem shutdown_on_drained (q : Pool) (hsd : q.isShuttingDown = true)
    (hht : q.healthTimerActive = false) (hs : q.sessions = [])
    (hb : q.browsers = []) (co2 : Nat → Bool × Bool) :
    shutdown q co2 = q := by
  have h1 : shutdownFlag q = q := by
    cases q with
    | mk cfg bs ss m sd ht =>
      simp only [shutdownFlag]
      simp only at hsd hht
      rw [hsd, hht]
  unfold shutdown
  rw [h1]
  have h2 : releaseAll q co2 = q := by
    unfold releaseAll
    rw [hs]
    rfl
  rw [h2]
  unfold removeAll
  rw [hb]
  rfl

/-- C8 (counterexample): shutting down a pool holding one session whose
`page.close()` throws leaves that session still registered in `sessions`
(the release swallows the error without deleting the entry), refuting
"all sessions have been force-released" — even though all handles are
destroyed and the shutting-down flag is raised. -/
theorem c8_counterexample :
    (shutdown poolW (fun _ => (false, true))).sessions.length = 1 ∧
    (shutdown poolW (fun _ => (false, true))).browsers = [] ∧
    (shutdown poolW (fun _ => (false, true))).isShuttingDown = true :=
  ⟨rfl, rfl, rfl⟩

/-- C8 (amended, theorem): after `shutdown`, every subsequent `getPage` call
fails with `PoolShuttingDown`, all handles are destroyed and the monitor
timer is stopped; provided every session's page and context close without
throwing, all sessions are removed as well, and then a second `shutdown`
call is a no-op (it returns the pool state unchanged). -/
theorem c8_shutdown_total (p : Pool) (co : Nat → Bool × Bool)
    (hco : ∀ sid, co sid = (true, true)) :
    (shutdown p co).isShuttingDown = true ∧
    (shutdown p co).sessions = [] ∧
    (shutdown p co).browsers = [] ∧
    (shutdown p co).healthTimerActive = false ∧
    (∀ (sid now : Nat) (lo c pg : Bool),
      (getPage (shutdown p co) sid now lo c pg).2 =
        Except.error PoolError.PoolShuttingDown) ∧
    (∀ co2, shutdown (shutdown p co) co2 = shutdown p co) := by
  have hflag : (shutdown p co).isShuttingDown = true ∧
      (shutdown p co).healthTimerActive = false := by
    have hrel := foldl_pool_pres
      (fun q sid => releasePage q sid (co sid).1 (co sid).2)
      (fun q => q.isShuttingDown = true ∧ q.healthTimerActive = false)
      (fun q k hq => ⟨((releasePage_flags q k _ _).1).trans hq.1,
        ((releasePage_flags q k _ _).2).trans hq.2⟩)
      ((shutdownFlag p).sessions.map Prod.fst) (shutdownFlag p) ⟨rfl, rfl⟩
    exact foldl_pool_pres (fun q bid => removeBrowser q bid)
      (fun q => q.isShuttingDown = true ∧ q.healthTimerActive = false)
      (fun q k hq => ⟨((removeBrowser_other q k).2.1).trans hq.1,
        ((removeBrowser_other q k).2.2).trans hq.2⟩)
      ((releaseAll (shutdownFlag p) co).browsers.map Prod.fst)
      (releaseAll (shutdownFlag p) co) hrel
  have hses : (shutdown p co).sessions = [] := by
    have h0 : (releaseAll (shutdownFlag p) co).sessions = [] :=
      releaseAll_sessions_empty (shutdownFlag p) co hco
    exact foldl_pool_pres (fun q bid => removeBrowser q bid)
      (fun q => q.sessions = [])
      (fun q k hq => ((removeBrowser_other q k).1).trans hq)
      ((releaseAll (shutdownFlag p) co).browsers.map Prod.fst)
      (releaseAll (shutdownFlag p) co) h0
  have hbr : (shutdown p co).browsers = [] :=
    removeAll_browsers_empty (releaseAll (shutdownFlag p) co)
  refine ⟨hflag.1, hses, hbr, hflag.2, ?_, ?_⟩
  · intro sid now lo c pg
    exact getPage_shutting (shutdown p co) hflag.1 sid now lo c pg
  · intro co2
    exact shutdown_on_drained (shutdown p co) hflag.1 hflag.2 hses hbr co2

/-- Witness for C8's amended theorem on `poolW` with all closes succeeding. -/
theorem c8_shutdown_witness :
    (shutdown poolW (fun _ => (true, true))).sessions = [] ∧
    (shutdown poolW (fun _ => (true, true))).browsers = [] ∧
    (getPage (shutdown poolW (fun _ => (true, true))) 4 7 true true true).2 =
      Except.error PoolError.PoolShuttingDown ∧
    shutdown (shutdown poolW (fun _ => (true, true))) (fun _ => (false, false)) =
      shutdown poolW (fun _ => (true, true)) :=
  ⟨(c8_shutdown_total poolW _ (fun _ => rfl)).2.1,
   (c8_shutdown_total poolW _ (fun _ => rfl)).2.2.1,
   (c8_shutdown_total poolW _ (fun _ => rfl)).2.2.2.2.1 4 7 true true true,
   (c8_shutdown_total poolW _ (fun _ => rfl)).2.2.2.2.2 _⟩
